import Mathlib

/-!
Verification development for the tour-map repository's core pipeline:
the API client (src/lib/api/tour-api.ts), the coordinate normalizer
(src/lib/types/tour.ts), the sort utility (tour-sort.ts), the pagination
layout controller (src/components/tour-map-layout.tsx) and the map marker
effect (src/components/naver-map.tsx), shallowly embedded in Lean.

Conventions of the embedding:
* JavaScript numbers are modelled as rationals (ℚ); the claims under
  study quantify only over finite non-NaN values, where rational
  arithmetic agrees with the source's real-number semantics.
* A JavaScript `throw` of a `TourApiError` is modelled as `Except.error`;
  an ordinary return is `Except.ok`.
* The asynchronous transport is modelled as a function `Nat → TransportOutcome`
  giving the outcome of the i-th fetch attempt (attempt numbering follows
  `retryCount` in the source, which is also the attempt index).
-/

namespace TourMap

/-! ## CoordinateNormalizer — convertKATECToWGS84 (src/lib/types/tour.ts) -/

structure GeoPoint where
  lng : ℚ
  lat : ℚ
deriving DecidableEq, Repr

/-- Embedding of `convertKATECToWGS84(mapx, mapy)`.  The arguments are the
already-parsed numeric values of the raw coordinate strings (the source
applies `parseFloat` first; non-numeric and NaN inputs, which make the
source return `null`, are outside the ℚ domain and are handled by the
`x = 0 ∨ y = 0` sentinel check exactly as the source's
`!x || !y || isNaN(x) || isNaN(y) || x === 0 || y === 0` does for finite
numbers). -/
def convertKATECToWGS84 (x y : ℚ) : Option GeoPoint :=
  if x = 0 ∨ y = 0 then none
  else
    let isKATEC : Bool := 1000000 ≤ |x| ∨ 1000000 ≤ |y|
    let lng : ℚ := if isKATEC then x / 10000000 else x
    let lat : ℚ := if isKATEC then y / 10000000 else y
    if lat < 32.5 ∨ 43.5 < lat ∨ lng < 123.5 ∨ 132.5 < lng then none
    else some ⟨lng, lat⟩

/-- The Korea bounding box used by the range validation, as a predicate
(the source rejects when `lat < 32.5 || lat > 43.5 || lng < 123.5 || lng > 132.5`). -/
def inKoreaBox (lat lng : ℚ) : Prop :=
  32.5 ≤ lat ∧ lat ≤ 43.5 ∧ 123.5 ≤ lng ∧ lng ≤ 132.5

instance (lat lng : ℚ) : Decidable (inKoreaBox lat lng) := by
  unfold inKoreaBox; infer_instance

end TourMap

namespace TourMap

/-- The range-validation branch of the normalizer agrees with the `inKoreaBox`
predicate formulation. -/
lemma boxCheck_eq (u v : ℚ) :
    (if v < 32.5 ∨ 43.5 < v ∨ u < 123.5 ∨ 132.5 < u then (none : Option GeoPoint)
     else some ⟨u, v⟩) =
    (if inKoreaBox v u then some ⟨u, v⟩ else none) := by
  by_cases h : inKoreaBox v u
  · obtain ⟨h1, h2, h3, h4⟩ := h
    rw [if_neg (show ¬(v < 32.5 ∨ 43.5 < v ∨ u < 123.5 ∨ 132.5 < u) by
          push_neg; exact ⟨h1, h2, h3, h4⟩),
      if_pos (show inKoreaBox v u from ⟨h1, h2, h3, h4⟩)]
  · rw [if_neg h, if_pos]
    unfold inKoreaBox at h
    push_neg at h
    by_contra hc
    push_neg at hc
    obtain ⟨c1, c2, c3, c4⟩ := hc
    exact absurd (h c1 c2 c3) (not_lt.mpr c4)

/-- Claim C1: degrees pass-through inside the box for small magnitudes, and
fixed-point decoding by 1e7 (accepted when in-box, rejected otherwise) for
magnitudes at least 1e6. -/
theorem convertKATECToWGS84_spec (x y : ℚ) (hx : x ≠ 0) (hy : y ≠ 0) :
    ((|x| < 1000000 ∧ |y| < 1000000 ∧ inKoreaBox y x) →
      convertKATECToWGS84 x y = some ⟨x, y⟩) ∧
    ((1000000 ≤ |x| ∨ 1000000 ≤ |y|) →
      convertKATECToWGS84 x y =
        if inKoreaBox (y / 10000000) (x / 10000000) then
          some ⟨x / 10000000, y / 10000000⟩
        else none) := by
  constructor
  · rintro ⟨hxs, hys, hbox⟩
    unfold convertKATECToWGS84
    rw [if_neg (by tauto)]
    have hk : (decide (1000000 ≤ |x| ∨ 1000000 ≤ |y|) : Bool) = false := by
      simp only [decide_eq_false_iff_not]
      push_neg
      exact ⟨hxs, hys⟩
    obtain ⟨h1, h2, h3, h4⟩ := hbox
    simp only [hk, Bool.false_eq_true, if_false]
    rw [if_neg (by push_neg; exact ⟨h1, h2, h3, h4⟩)]
  · intro hk
    unfold convertKATECToWGS84
    rw [if_neg (by tauto)]
    have hk' : (decide (1000000 ≤ |x| ∨ 1000000 ≤ |y|) : Bool) = true := by
      simpa using hk
    simp only [hk', if_true]
    exact boxCheck_eq (x / 10000000) (y / 10000000)

/-- Witness for C1 at both branches' concrete inputs. -/
theorem convertKATECToWGS84_spec_witness :
    convertKATECToWGS84 (1269780000 : ℚ) (375665000 : ℚ) =
      if inKoreaBox ((375665000 : ℚ) / 10000000) ((1269780000 : ℚ) / 10000000) then
        some ⟨(1269780000 : ℚ) / 10000000, (375665000 : ℚ) / 10000000⟩
      else none :=
  (convertKATECToWGS84_spec 1269780000 375665000 (by norm_num) (by norm_num)).2
    (by norm_num)

end TourMap

namespace TourMap

/-! ## ApiClient — src/lib/api/tour-api.ts

The transport is a function from the attempt index (the source's
`retryCount`, starting at 0) to that attempt's outcome: either a
network-level failure (the `fetch` promise rejecting, carrying the cause
message) or an HTTP response. -/

/-- Embedding of the `TourApiError` class (message, optional application
error code, optional HTTP status code). -/
structure TourApiError where
  message : String
  code : Option String
  statusCode : Option Nat
deriving DecidableEq, Repr

/-- The envelope field `response.body.items.item`, which is a single
object, an array, or absent (`null`/missing, the source's falsy check). -/
inductive ItemField (T : Type) where
  | absent
  | single (t : T)
  | array (ts : List T)
deriving DecidableEq, Repr

/-- The decoded JSON envelope (`ApiResponse<T>`), flattened to the fields
the client reads: `response.header.resultCode/resultMsg` and
`response.body.items.item` / `response.body.totalCount`. -/
structure ApiResponseData (T : Type) where
  resultCode : String
  resultMsg : String
  items : ItemField T
  totalCount : Nat
deriving DecidableEq, Repr

/-- An HTTP response as seen by the client: status, status text and the
decoded JSON body. `response.ok` is `200 ≤ status < 300`. -/
structure HttpResponse (T : Type) where
  status : Nat
  statusText : String
  data : ApiResponseData T
deriving DecidableEq, Repr

inductive TransportOutcome (T : Type) where
  | netErr (cause : String)
  | resp (r : HttpResponse T)
deriving DecidableEq, Repr

/-- The observable behaviour of one `fetchWithRetry` call: the value it
settles with (`result`), the backoff delays awaited in order (`delays`,
milliseconds), and how many fetch attempts were made (`attempts`). -/
structure FetchRun (T : Type) where
  result : Except TourApiError (HttpResponse T)
  delays : List Nat
  attempts : Nat

def MAX_RETRIES : Nat := 3

def RETRY_DELAYS : List Nat := [1000, 2000, 4000]

/-- The `TourApiError` thrown after retry exhaustion on a network failure
(`네트워크 오류가 발생했습니다. ${cause}`). -/
def networkError (cause : String) : TourApiError :=
  ⟨"네트워크 오류가 발생했습니다. " ++ cause, none, none⟩

/-- Embedding of `fetchWithRetry(url, options, retryCount)`.  A 5xx
response with retries remaining, or a network failure with retries
remaining, waits `RETRY_DELAYS[retryCount] || RETRY_DELAYS[2]` and
recurses with `retryCount + 1`; otherwise a response is returned as-is
and an exhausted network failure throws `networkError`. -/
def fetchWithRetry {T : Type} (t : Nat → TransportOutcome T) (retryCount : Nat) :
    FetchRun T :=
  match t retryCount with
  | .resp r =>
    if h : 500 ≤ r.status ∧ retryCount < MAX_RETRIES then
      let rest := fetchWithRetry t (retryCount + 1)
      ⟨rest.result, RETRY_DELAYS.getD retryCount 4000 :: rest.delays, rest.attempts + 1⟩
    else ⟨.ok r, [], 1⟩
  | .netErr cause =>
    if h : retryCount < MAX_RETRIES then
      let rest := fetchWithRetry t (retryCount + 1)
      ⟨rest.result, RETRY_DELAYS.getD retryCount 4000 :: rest.delays, rest.attempts + 1⟩
    else ⟨.error (networkError cause), [], 1⟩
termination_by MAX_RETRIES - retryCount
decreasing_by
  all_goals simp only [MAX_RETRIES] at *; omega

/-- Embedding of `parseApiResponse(response)`: non-ok status throws with
the status code; a `resultCode` other than `"0000"` throws with the
upstream code and message (`resultMsg || default`); otherwise
`items.item` is normalized to an array (absent becomes `[]`). -/
def parseApiResponse {T : Type} (r : HttpResponse T) : Except TourApiError (List T) :=
  if ¬(200 ≤ r.status ∧ r.status < 300) then
    .error ⟨"API 요청 실패: " ++ toString r.status ++ " " ++ r.statusText,
            none, some r.status⟩
  else if r.data.resultCode ≠ "0000" then
    .error ⟨if r.data.resultMsg = "" then "API 오류가 발생했습니다." else r.data.resultMsg,
            some r.data.resultCode, none⟩
  else
    match r.data.items with
    | .absent => .ok []
    | .single x => .ok [x]
    | .array xs => .ok xs

/-- Embedding of `callApi`: `fetchWithRetry` from attempt 0, then
`parseApiResponse` on the settled response.  The second component is the
number of fetch attempts that were made (0 would mean no network call).
Query-string construction and the service key are not modelled; no claim
depends on them. -/
def callApi {T : Type} (t : Nat → TransportOutcome T) :
    Except TourApiError (List T) × Nat :=
  let run := fetchWithRetry t 0
  (match run.result with
   | .ok r => parseApiResponse r
   | .error e => .error e,
   run.attempts)

/-- The `TourApiError` thrown by `searchKeyword` on a missing keyword. -/
def keywordRequiredError : TourApiError := ⟨"검색 키워드를 입력해주세요.", none, none⟩

/-- JavaScript's `String.prototype.trim()`: strip leading and trailing
whitespace, modelled over the character list. -/
def jsTrim (s : String) : String :=
  String.mk (((s.data.dropWhile Char.isWhitespace).reverse.dropWhile
    Char.isWhitespace).reverse)

/-- Embedding of `searchKeyword(keyword, options)`: the guard
`!keyword || keyword.trim().length === 0` throws `keywordRequiredError`
before any network call; otherwise the request is issued through
`callApi`. -/
def searchKeyword {T : Type} (keyword : String) (t : Nat → TransportOutcome T) :
    Except TourApiError (List T) × Nat :=
  if keyword = "" ∨ (jsTrim keyword).length = 0 then (.error keywordRequiredError, 0)
  else callApi t

/-- An attempt outcome that the source's retry loop retries on: a
network failure or an HTTP status of at least 500. -/
def retryableOutcome {T : Type} : TransportOutcome T → Bool
  | .netErr _ => true
  | .resp r => decide (500 ≤ r.status)

lemma fetch_step_resp_retry {T : Type} (t : Nat → TransportOutcome T) (rc : Nat)
    (r : HttpResponse T) (ht : t rc = .resp r) (h5 : 500 ≤ r.status)
    (hrc : rc < MAX_RETRIES) :
    fetchWithRetry t rc =
      ⟨(fetchWithRetry t (rc + 1)).result,
        RETRY_DELAYS.getD rc 4000 :: (fetchWithRetry t (rc + 1)).delays,
        (fetchWithRetry t (rc + 1)).attempts + 1⟩ := by
  rw [fetchWithRetry, ht]
  simp [h5, hrc]

lemma fetch_step_resp_stop {T : Type} (t : Nat → TransportOutcome T) (rc : Nat)
    (r : HttpResponse T) (ht : t rc = .resp r)
    (h : ¬(500 ≤ r.status ∧ rc < MAX_RETRIES)) :
    fetchWithRetry t rc = ⟨.ok r, [], 1⟩ := by
  rw [fetchWithRetry, ht]
  simp [h]

lemma fetch_step_net_retry {T : Type} (t : Nat → TransportOutcome T) (rc : Nat)
    (cause : String) (ht : t rc = .netErr cause) (hrc : rc < MAX_RETRIES) :
    fetchWithRetry t rc =
      ⟨(fetchWithRetry t (rc + 1)).result,
        RETRY_DELAYS.getD rc 4000 :: (fetchWithRetry t (rc + 1)).delays,
        (fetchWithRetry t (rc + 1)).attempts + 1⟩ := by
  rw [fetchWithRetry, ht]
  simp [hrc]

lemma fetch_step_net_stop {T : Type} (t : Nat → TransportOutcome T) (rc : Nat)
    (cause : String) (ht : t rc = .netErr cause) (hrc : ¬ rc < MAX_RETRIES) :
    fetchWithRetry t rc = ⟨.error (networkError cause), [], 1⟩ := by
  rw [fetchWithRetry, ht]
  simp [hrc]

lemma fetch_inv {T : Type} (t : Nat → TransportOutcome T) :
    ∀ d rc, rc + d = MAX_RETRIES →
      1 ≤ (fetchWithRetry t rc).attempts ∧
      (fetchWithRetry t rc).attempts ≤ d + 1 ∧
      (fetchWithRetry t rc).delays =
        (RETRY_DELAYS.drop rc).take ((fetchWithRetry t rc).attempts - 1) ∧
      (∀ i, rc ≤ i → i + 1 < rc + (fetchWithRetry t rc).attempts →
        retryableOutcome (t i) = true) := by
  intro d
  induction d with
  | zero =>
    intro rc hrc
    have hrc3 : rc = 3 := by simpa [MAX_RETRIES] using hrc
    subst hrc3
    cases ht : t 3 with
    | resp r =>
      rw [fetch_step_resp_stop t 3 r ht (by simp [MAX_RETRIES])]
      dsimp only
      refine ⟨le_refl _, by omega, by simp, ?_⟩
      intro i hi hi2
      omega
    | netErr cause =>
      rw [fetch_step_net_stop t 3 cause ht (by simp [MAX_RETRIES])]
      dsimp only
      refine ⟨le_refl _, by omega, by simp, ?_⟩
      intro i hi hi2
      omega
  | succ d ih =>
    intro rc hrc
    have hrc3 : rc + (d + 1) = 3 := by simpa [MAX_RETRIES] using hrc
    have hlt : rc < MAX_RETRIES := by simp only [MAX_RETRIES]; omega
    obtain ⟨ih1, ih2, ih3, ih4⟩ := ih (rc + 1) (by simp only [MAX_RETRIES]; omega)
    have hdrop : RETRY_DELAYS.drop rc =
        RETRY_DELAYS.getD rc 4000 :: RETRY_DELAYS.drop (rc + 1) := by
      have hrc2 : rc < 3 := by omega
      interval_cases rc <;> simp [RETRY_DELAYS]
    have htake : ∀ l : List Nat,
        (RETRY_DELAYS.getD rc 4000 :: l).take ((fetchWithRetry t (rc + 1)).attempts + 1 - 1) =
          RETRY_DELAYS.getD rc 4000 :: l.take ((fetchWithRetry t (rc + 1)).attempts - 1) := by
      intro l
      obtain ⟨k, hk⟩ : ∃ k, (fetchWithRetry t (rc + 1)).attempts = k + 1 :=
        ⟨(fetchWithRetry t (rc + 1)).attempts - 1, by omega⟩
      rw [hk]
      simp
    cases ht : t rc with
    | resp r =>
      by_cases h5 : 500 ≤ r.status
      · rw [fetch_step_resp_retry t rc r ht h5 hlt]
        dsimp only
        refine ⟨by omega, by omega, ?_, ?_⟩
        · rw [hdrop, htake, ← ih3]
        · intro i hi hi2
          rcases Nat.eq_or_lt_of_le hi with heq | hlt2
          · rw [← heq, ht]
            simp [retryableOutcome, h5]
          · exact ih4 i hlt2 (by omega)
      · rw [fetch_step_resp_stop t rc r ht (by tauto)]
        dsimp only
        refine ⟨le_refl _, by omega, by simp, ?_⟩
        intro i hi hi2
        omega
    | netErr cause =>
      rw [fetch_step_net_retry t rc cause ht hlt]
      dsimp only
      refine ⟨by omega, by omega, ?_, ?_⟩
      · rw [hdrop, htake, ← ih3]
      · intro i hi hi2
        rcases Nat.eq_or_lt_of_le hi with heq | hlt2
        · rw [← heq, ht]
          simp [retryableOutcome]
        · exact ih4 i hlt2 (by omega)

end TourMap

namespace TourMap

/-- Claim C3: the retry policy of `fetchWithRetry` from attempt 0.
(a) at most 4 attempts, the awaited delays are the fixed prefix of
1000/2000/4000 ms in order, and every attempt that was followed by a
retry had a retryable outcome (network failure or status ≥ 500);
(b) a first response with status < 500 is settled immediately with one
attempt and no delay (in particular 4xx is never retried);
(c) a persistent network failure exhausts exactly the three delays and
four attempts and throws the typed `networkError` wrapping the last
failure;
(d) through `callApi`, a first-attempt 4xx response fails at once with
the typed status error after a single attempt. -/
theorem fetchWithRetry_policy {T : Type} (t : Nat → TransportOutcome T) :
    ((fetchWithRetry t 0).attempts ≤ 4 ∧
     (fetchWithRetry t 0).delays =
       RETRY_DELAYS.take ((fetchWithRetry t 0).attempts - 1) ∧
     (∀ i, i + 1 < (fetchWithRetry t 0).attempts → retryableOutcome (t i) = true)) ∧
    (∀ r : HttpResponse T, t 0 = .resp r → r.status < 500 →
       fetchWithRetry t 0 = ⟨.ok r, [], 1⟩) ∧
    (∀ cause, (∀ i, t i = .netErr cause) →
       fetchWithRetry t 0 = ⟨.error (networkError cause), [1000, 2000, 4000], 4⟩) ∧
    (∀ r : HttpResponse T, t 0 = .resp r → 400 ≤ r.status → r.status < 500 →
       callApi t =
         (.error ⟨"API 요청 실패: " ++ toString r.status ++ " " ++ r.statusText,
                  none, some r.status⟩, 1)) := by
  obtain ⟨h1, h2, h3, h4⟩ := fetch_inv t 3 0 rfl
  refine ⟨⟨by omega, by simpa using h3, fun i hi => h4 i (Nat.zero_le i) (by omega)⟩,
    ?_, ?_, ?_⟩
  · intro r h0 hlt
    exact fetch_step_resp_stop t 0 r h0 (by rintro ⟨a, _⟩; omega)
  · intro cause hall
    rw [fetch_step_net_retry t 0 cause (hall 0) (by simp [MAX_RETRIES]),
      fetch_step_net_retry t 1 cause (hall 1) (by simp [MAX_RETRIES]),
      fetch_step_net_retry t 2 cause (hall 2) (by simp [MAX_RETRIES]),
      fetch_step_net_stop t 3 cause (hall 3) (by simp [MAX_RETRIES])]
    simp [RETRY_DELAYS]
  · intro r h0 h400 hlt
    have hstop := fetch_step_resp_stop t 0 r h0 (by rintro ⟨a, _⟩; omega)
    simp only [callApi, hstop]
    rw [parseApiResponse, if_pos (by rintro ⟨_, hb⟩; omega)]

/-- Witness for C3 on the all-network-failure transport. -/
theorem fetchWithRetry_policy_witness :
    fetchWithRetry (T := Unit) (fun _ => .netErr "Failed to fetch") 0 =
      ⟨.error (networkError "Failed to fetch"), [1000, 2000, 4000], 4⟩ :=
  ((fetchWithRetry_policy (T := Unit) (fun _ => .netErr "Failed to fetch")).2.2.1)
    "Failed to fetch" (fun _ => rfl)

/-- Claim C4: a 200 response whose envelope `resultCode` is not `"0000"`
makes `callApi` throw the typed error carrying the upstream code and
message, after exactly one fetch attempt (the application-level error is
never retried). -/
theorem callApi_appError {T : Type} (t : Nat → TransportOutcome T)
    (r : HttpResponse T) (h0 : t 0 = .resp r) (hst : r.status = 200)
    (hcode : r.data.resultCode ≠ "0000") :
    callApi t =
      (.error ⟨if r.data.resultMsg = "" then "API 오류가 발생했습니다." else r.data.resultMsg,
               some r.data.resultCode, none⟩, 1) := by
  have hstop := fetch_step_resp_stop t 0 r h0 (by rw [hst]; rintro ⟨a, _⟩; omega)
  simp only [callApi, hstop]
  rw [parseApiResponse, if_neg (not_not_intro ⟨by omega, by omega⟩), if_pos hcode]

/-- Witness for C4: a concrete 200 response carrying upstream code
`"03"` / message `"NO_OPENAPI_SERVICE_ERROR"`. -/
theorem callApi_appError_witness :
    callApi (T := Unit)
        (fun _ => .resp ⟨200, "OK", ⟨"03", "NO_OPENAPI_SERVICE_ERROR", .absent, 0⟩⟩) =
      (.error ⟨"NO_OPENAPI_SERVICE_ERROR", some "03", none⟩, 1) := by
  have h := callApi_appError (T := Unit)
    (fun _ => .resp ⟨200, "OK", ⟨"03", "NO_OPENAPI_SERVICE_ERROR", .absent, 0⟩⟩)
    ⟨200, "OK", ⟨"03", "NO_OPENAPI_SERVICE_ERROR", .absent, 0⟩⟩ rfl rfl (by decide)
  simpa using h

/-- Claim C5: on a successful envelope (`resultCode = "0000"`) the client
normalizes `items.item`: absent becomes `[]`, a single object becomes a
one-element array, an array is returned as-is. -/
theorem callApi_unwrapsItems {T : Type} (t : Nat → TransportOutcome T)
    (r : HttpResponse T) (h0 : t 0 = .resp r) (hst : r.status = 200)
    (hcode : r.data.resultCode = "0000") :
    (r.data.items = .absent → callApi t = (.ok [], 1)) ∧
    (∀ x, r.data.items = .single x → callApi t = (.ok [x], 1)) ∧
    (∀ xs, r.data.items = .array xs → callApi t = (.ok xs, 1)) := by
  have hstop := fetch_step_resp_stop t 0 r h0 (by rw [hst]; rintro ⟨a, _⟩; omega)
  have hbase : callApi t = (parseApiResponse r, 1) := by
    simp only [callApi, hstop]
  have hparse : parseApiResponse r =
      (match r.data.items with
       | .absent => .ok []
       | .single x => .ok [x]
       | .array xs => .ok xs) := by
    rw [parseApiResponse, if_neg (not_not_intro ⟨by omega, by omega⟩),
      if_neg (not_not_intro hcode)]
  refine ⟨?_, ?_, ?_⟩
  · intro habs
    rw [hbase, hparse, habs]
  · intro x hsingle
    rw [hbase, hparse, hsingle]
  · intro xs harr
    rw [hbase, hparse, harr]

/-- Witness for C5: `items.item: null` yields an empty array, not an error. -/
theorem callApi_unwrapsItems_witness :
    callApi (T := Unit) (fun _ => .resp ⟨200, "OK", ⟨"0000", "OK", .absent, 0⟩⟩) =
      (.ok [], 1) :=
  (callApi_unwrapsItems (T := Unit)
      (fun _ => .resp ⟨200, "OK", ⟨"0000", "OK", .absent, 0⟩⟩)
      ⟨200, "OK", ⟨"0000", "OK", .absent, 0⟩⟩ rfl rfl rfl).1 rfl

/-- Counterexample to claim C10 as stated: on the empty keyword the
source's `searchKeyword` throws the typed `TourApiError`
(`keywordRequiredError`) — modelled as the `Except.error` outcome — before
any network attempt, rather than returning an ordinary "absent" value. -/
theorem searchKeyword_empty_throws :
    searchKeyword (T := Unit) "" (fun _ => .netErr "unused") =
      (.error keywordRequiredError, 0) := by
  rw [searchKeyword, if_pos (Or.inl rfl)]

/-- Claim C10 (amended): every empty or whitespace-only keyword makes
`searchKeyword` throw `keywordRequiredError` immediately, with zero
network attempts; the rejection is a thrown typed error, not an ordinary
return value. -/
theorem searchKeyword_blank_rejected {T : Type} (keyword : String)
    (t : Nat → TransportOutcome T) (h : jsTrim keyword = "") :
    searchKeyword keyword t = (.error keywordRequiredError, 0) := by
  rw [searchKeyword, if_pos (Or.inr (by rw [h]; rfl))]

/-- Witness for the amended C10 on a whitespace-only keyword. -/
theorem searchKeyword_blank_rejected_witness :
    searchKeyword (T := Unit) "   " (fun _ => .netErr "unused") =
      (.error keywordRequiredError, 0) :=
  searchKeyword_blank_rejected (T := Unit) "   " (fun _ => .netErr "unused") (by decide)

end TourMap

namespace TourMap

/-! ## Data model — TourItem (src/lib/types/tour.ts)

Only the fields the verified components read are carried.  `mapx`/`mapy`
hold the already-parsed numeric coordinate values (the source stores raw
strings and parses them inside `convertKATECToWGS84`; the parse step is
accounted for in the normalizer's embedding above). -/

structure TourItem where
  contentid : String
  title : String
  addr1 : String
  addr2 : String
  contenttypeid : String
  modifiedtime : String
  mapx : ℚ
  mapy : ℚ
deriving DecidableEq, Repr

/-- Literal helper for concrete items in witnesses. -/
def mkItem (id title mt : String) (x y : ℚ) : TourItem :=
  ⟨id, title, "", "", "", mt, x, y⟩

end TourMap

namespace TourMap

/-! ## SortEngine — sortTours (src/lib/utils/tour-sort.ts)

`sortTours` copies the caller's array (`const sorted = [...tours]`) and
sorts the copy in place with `Array.prototype.sort`, which is stable; a
pure stable sort (`List.insertionSort`) embeds both the copy and the
sort.  The `"name"` order compares with `a.title.localeCompare(b.title,
"ko")`; the host-environment Korean collation is an unspecified
consistent comparator, so it enters the embedding as a parameter `ko`
where `ko a b` stands for `a.localeCompare(b, "ko") ≤ 0`. -/

inductive SortOption where
  | latest
  | name
deriving DecidableEq, Repr

/-- Embedding of `parseModifiedTime` composed with `Date.getTime`: the
six fixed-width fields of `YYYYMMDDHHmmss` are sliced positionally and
combined in lexicographic weight.  On well-formed timestamps this key is
order-isomorphic to the source's `Date(...).getTime()`. -/
def parseModifiedTime (s : String) : Nat :=
  let year := ((s.data.take 4).asString).toNat?.getD 0
  let month := ((s.data.drop 4).take 2).asString.toNat?.getD 0
  let day := ((s.data.drop 6).take 2).asString.toNat?.getD 0
  let hour := ((s.data.drop 8).take 2).asString.toNat?.getD 0
  let minute := ((s.data.drop 10).take 2).asString.toNat?.getD 0
  let second := ((s.data.drop 12).take 2).asString.toNat?.getD 0
  ((((year * 13 + month) * 32 + day) * 24 + hour) * 60 + minute) * 60 + second

/-- `"latest"` comparator: `dateB - dateA ≤ 0`, i.e. descending by
modification time. -/
def latestLe (a b : TourItem) : Prop :=
  parseModifiedTime b.modifiedtime ≤ parseModifiedTime a.modifiedtime

instance : DecidableRel latestLe := fun x y =>
  inferInstanceAs (Decidable (parseModifiedTime y.modifiedtime ≤ parseModifiedTime x.modifiedtime))

/-- `"name"` comparator under the collation `ko`. -/
def nameLe (ko : String → String → Bool) (a b : TourItem) : Prop :=
  ko a.title b.title = true

instance (ko : String → String → Bool) : DecidableRel (nameLe ko) := fun x y =>
  inferInstanceAs (Decidable (ko x.title y.title = true))

/-- Embedding of `sortTours(tours, sortOption)`. -/
def sortTours (ko : String → String → Bool) (tours : List TourItem)
    (sortOption : SortOption) : List TourItem :=
  match sortOption with
  | .latest => List.insertionSort latestLe tours
  | .name => List.insertionSort (nameLe ko) tours

/-- Claim C9: the name sort returns a new sequence holding exactly the
caller's items (a permutation — in-place mutation does not exist in the
embedding because the source sorts a copy), and sorting by name is
idempotent, provided the collation is total and transitive (as
`localeCompare` collations are). -/
theorem sortTours_name_idempotent (ko : String → String → Bool)
    (htot : ∀ a b, ko a b = true ∨ ko b a = true)
    (htrans : ∀ a b c, ko a b = true → ko b c = true → ko a c = true)
    (tours : List TourItem) :
    (sortTours ko tours .name).Perm tours ∧
    sortTours ko (sortTours ko tours .name) .name = sortTours ko tours .name := by
  haveI : IsTotal TourItem (nameLe ko) := ⟨fun a b => htot a.title b.title⟩
  haveI : IsTrans TourItem (nameLe ko) :=
    ⟨fun a b c hab hbc => htrans a.title b.title c.title hab hbc⟩
  refine ⟨List.perm_insertionSort (nameLe ko) tours, ?_⟩
  exact List.Sorted.insertionSort_eq
    (List.sorted_insertionSort (nameLe ko) tours)

/-- Witness for C9: byte-order collation on two concrete items. -/
theorem sortTours_name_idempotent_witness :
    ((sortTours (fun a b => decide (a ≤ b))
        [mkItem "2" "서울" "20240301000000" 127 37.5,
         mkItem "1" "부산" "20240101000000" 129 35.1] .name).Perm
      [mkItem "2" "서울" "20240301000000" 127 37.5,
       mkItem "1" "부산" "20240101000000" 129 35.1]) ∧
    sortTours (fun a b => decide (a ≤ b))
        (sortTours (fun a b => decide (a ≤ b))
          [mkItem "2" "서울" "20240301000000" 127 37.5,
           mkItem "1" "부산" "20240101000000" 129 35.1] .name) .name =
      sortTours (fun a b => decide (a ≤ b))
        [mkItem "2" "서울" "20240301000000" 127 37.5,
         mkItem "1" "부산" "20240101000000" 129 35.1] .name :=
  sortTours_name_idempotent (fun a b => decide (a ≤ b))
    (fun a b => by
      rcases le_total a b with h | h
      · exact Or.inl (by simpa using h)
      · exact Or.inr (by simpa using h))
    (fun a b c hab hbc => by
      simp only [decide_eq_true_eq] at *
      exact le_trans hab hbc)
    [mkItem "2" "서울" "20240301000000" 127 37.5,
     mkItem "1" "부산" "20240101000000" 129 35.1]

end TourMap

namespace TourMap

/-! ## PaginationController — TourMapLayout (src/components/tour-map-layout.tsx)

The component's pagination state (the `useState` hooks `allTours`,
`currentPage`, `isLoadingMore`, `hasMore`, `totalCount`) and its two
mutating paths: the filter-reset effect and `handleLoadMore`.

The host environment is single-threaded and callback-driven, so an
execution is a sequence of atomic state transitions.  `handleLoadMore`
spans an `await`: the part before the await (the guard plus
`setIsLoadingMore(true)`) is the `startLoad` event, and the continuation
after `loadMoreTours` settles (the state setters in the `try`/`catch`/
`finally`) is the `settleLoad` event carrying the captured `nextPage`
closure value and the settled result.  A `reset` event is the
filter-change effect re-initializing every field. -/

/-- The value `loadMoreTours` resolves with. -/
structure LoadMoreResult where
  tours : List TourItem
  hasMore : Bool
  totalCount : Nat
deriving DecidableEq, Repr

/-- The pagination-related component state. -/
structure LayoutState where
  allTours : List TourItem
  currentPage : Nat
  isLoadingMore : Bool
  hasMore : Bool
  totalCount : Nat
deriving DecidableEq, Repr

/-- State produced by the reset effect (also the initial `useState`
values, which use the same expressions).  `initialTotalCount` is an
optional number; the source's truthiness test means both `undefined` and
`0` select the `initialTours.length >= 20` estimate, and `totalCount`
falls back to `0`. -/
def resetState (initialTours : List TourItem) (initialTotalCount : Option Nat) :
    LayoutState :=
  { allTours := initialTours
    currentPage := 1
    isLoadingMore := false
    hasMore :=
      match initialTotalCount with
      | some n => if n = 0 then decide (20 ≤ initialTours.length)
                  else decide (initialTours.length < n)
      | none => decide (20 ≤ initialTours.length)
    totalCount := (initialTotalCount).getD 0 }

/-- One complete, un-interleaved `handleLoadMore` call: the guard
(`isLoadingMore || !hasMore` is a no-op), then the merge of a resolved
`loadMoreTours` result (append, advance page, adopt `hasMore` and
`totalCount`) or the `catch` path of a rejected one (`hasMore := false`,
everything else untouched); `finally` clears `isLoadingMore`. -/
def handleLoadMore (s : LayoutState)
    (fetchResult : Except TourApiError LoadMoreResult) : LayoutState :=
  if s.isLoadingMore ∨ s.hasMore = false then s
  else
    match fetchResult with
    | .ok r =>
      { allTours := s.allTours ++ r.tours
        currentPage := s.currentPage + 1
        isLoadingMore := false
        hasMore := r.hasMore
        totalCount := r.totalCount }
    | .error _ =>
      { s with hasMore := false, isLoadingMore := false }

/-- Events of the component's single-threaded execution. -/
inductive LayoutEvent where
  | reset (initialTours : List TourItem) (initialTotalCount : Option Nat)
  | startLoad
  | settleLoad (capturedNextPage : Nat)
      (res : Except TourApiError LoadMoreResult)

/-- One atomic transition.  `settleLoad` is the continuation of an earlier
`startLoad`'s awaited fetch: `setAllTours` uses a functional update, so it
appends to whatever `allTours` is current at settlement time;
`setCurrentPage` writes the `nextPage` value captured when the fetch was
issued; no field of the state identifies the filter context, so the
continuation has nothing to compare against. -/
def stepLayout (s : LayoutState) : LayoutEvent → LayoutState
  | .reset init tc => resetState init tc
  | .startLoad =>
    if s.isLoadingMore ∨ s.hasMore = false then s
    else { s with isLoadingMore := true }
  | .settleLoad nextPage res =>
    match res with
    | .ok r =>
      { allTours := s.allTours ++ r.tours
        currentPage := nextPage
        isLoadingMore := false
        hasMore := r.hasMore
        totalCount := r.totalCount }
    | .error _ =>
      { s with hasMore := false, isLoadingMore := false }

def runLayout (s : LayoutState) (es : List LayoutEvent) : LayoutState :=
  es.foldl stepLayout s

/-- A concrete item used by the duplicate-page counterexample. -/
def dupTour : TourItem := mkItem "125266" "경복궁" "20240101000000" 127 37

/-- Counterexample to claim C2 as stated: a completed `loadNext` whose
page carries an id already present in the session leaves that id in the
items sequence twice — the merge in `handleLoadMore` is a plain append
with no deduplication by id. -/
theorem loadNext_duplicate_id :
    ((handleLoadMore
        { allTours := [dupTour], currentPage := 1, isLoadingMore := false,
          hasMore := true, totalCount := 40 }
        (.ok { tours := [dupTour], hasMore := true, totalCount := 40 })).allTours.countP
      (fun item => item.contentid == "125266")) = 2 := by
  decide

/-- Claim C2 (amended): a completed `loadNext` merges by plain
concatenation — the new items sequence is exactly the old sequence
followed by the page's results, with no deduplication by id, so an id
appearing on two pages appears twice. -/
theorem loadNext_appends_without_dedup (s : LayoutState) (r : LoadMoreResult)
    (h1 : s.isLoadingMore = false) (h2 : s.hasMore = true) :
    (handleLoadMore s (.ok r)).allTours = s.allTours ++ r.tours := by
  rw [handleLoadMore, if_neg (by simp [h1, h2])]

/-- Witness for the amended C2. -/
theorem loadNext_appends_without_dedup_witness :
    (handleLoadMore
        { allTours := [dupTour], currentPage := 1, isLoadingMore := false,
          hasMore := true, totalCount := 40 }
        (.ok { tours := [dupTour], hasMore := true, totalCount := 40 })).allTours =
      [dupTour] ++ [dupTour] :=
  loadNext_appends_without_dedup
    { allTours := [dupTour], currentPage := 1, isLoadingMore := false,
      hasMore := true, totalCount := 40 }
    { tours := [dupTour], hasMore := true, totalCount := 40 } rfl rfl

/-- Claim C7: a `loadNext` that passed the guard and whose fetch fails
leaves the accumulated items exactly as they were, sets `exhausted`
(`hasMore := false`), and does not change the page counter or the known
total. -/
theorem loadNext_failure_keeps_items (s : LayoutState) (e : TourApiError)
    (h1 : s.isLoadingMore = false) (h2 : s.hasMore = true) :
    (handleLoadMore s (.error e)).allTours = s.allTours ∧
    (handleLoadMore s (.error e)).hasMore = false ∧
    (handleLoadMore s (.error e)).currentPage = s.currentPage ∧
    (handleLoadMore s (.error e)).totalCount = s.totalCount := by
  rw [handleLoadMore, if_neg (by simp [h1, h2])]
  exact ⟨rfl, rfl, rfl, rfl⟩

/-- Witness for C7 on a concrete failed fetch. -/
theorem loadNext_failure_keeps_items_witness :
    (handleLoadMore
        { allTours := [dupTour], currentPage := 2, isLoadingMore := false,
          hasMore := true, totalCount := 40 }
        (.error (networkError "Failed to fetch"))).allTours = [dupTour] ∧
    (handleLoadMore
        { allTours := [dupTour], currentPage := 2, isLoadingMore := false,
          hasMore := true, totalCount := 40 }
        (.error (networkError "Failed to fetch"))).hasMore = false ∧
    (handleLoadMore
        { allTours := [dupTour], currentPage := 2, isLoadingMore := false,
          hasMore := true, totalCount := 40 }
        (.error (networkError "Failed to fetch"))).currentPage = 2 ∧
    (handleLoadMore
        { allTours := [dupTour], currentPage := 2, isLoadingMore := false,
          hasMore := true, totalCount := 40 }
        (.error (networkError "Failed to fetch"))).totalCount = 40 :=
  loadNext_failure_keeps_items
    { allTours := [dupTour], currentPage := 2, isLoadingMore := false,
      hasMore := true, totalCount := 40 }
    (networkError "Failed to fetch") rfl rfl

/-- Items for the stale-response counterexample: context A's initial page
and its second page, and context B's initial page. -/
def tourA1 : TourItem := mkItem "A1" "경복궁" "20240101000000" 127 37

def tourA2 : TourItem := mkItem "A2" "창덕궁" "20240102000000" 127 38

def tourB1 : TourItem := mkItem "B1" "해운대" "20240103000000" 129 35

/-- Counterexample to claim C6 as stated: context A's session starts a
page fetch, the session is superseded by a reset to context B, and the
late-arriving page for A is merged into B's session — its item `tourA2`
ends up in the items, because no context comparison exists in the
settlement path. -/
theorem stale_response_merged :
    (runLayout (resetState [tourA1] (some 50))
        [.startLoad,
         .reset [tourB1] (some 50),
         .settleLoad 2 (.ok { tours := [tourA2], hasMore := true, totalCount := 50 })]).allTours
      = [tourB1, tourA2] := by
  decide

/-- Claim C6 (amended): a page response arriving after the session was
superseded by a reset is not detected or discarded — the settlement
appends it to the new context's items unconditionally, so the late page's
items always appear in the new session. -/
theorem stale_response_not_discarded (initA initB : List TourItem)
    (tcA tcB : Option Nat) (nextPage : Nat) (r : LoadMoreResult)
    (hA : (resetState initA tcA).hasMore = true) :
    (runLayout (resetState initA tcA)
        [.startLoad, .reset initB tcB, .settleLoad nextPage (.ok r)]).allTours
      = initB ++ r.tours := by
  have hstart : stepLayout (resetState initA tcA) .startLoad =
      { resetState initA tcA with isLoadingMore := true } := by
    rw [stepLayout]
    rw [if_neg (by
      have hA2 := hA
      simp only [resetState] at hA2
      simp [resetState, hA2])]
  simp only [runLayout, List.foldl, hstart, stepLayout]
  rfl

/-- Witness for the amended C6. -/
theorem stale_response_not_discarded_witness :
    (runLayout (resetState [tourA1] (some 50))
        [.startLoad, .reset [tourB1] (some 50),
         .settleLoad 2 (.ok { tours := [tourA2], hasMore := true, totalCount := 50 })]).allTours
      = [tourB1] ++ [tourA2] :=
  stale_response_not_discarded [tourA1] [tourB1] (some 50) (some 50) 2
    { tours := [tourA2], hasMore := true, totalCount := 50 } (by decide)

end TourMap

namespace TourMap

/-! ## Map marker effect — NaverMap (src/components/naver-map.tsx)

The marker `useEffect` has dependency array `[isScriptLoaded, tours,
onTourSelect]`, so (with the script loaded) it re-runs on every change of
the `tours` prop — which is `allTours`, a fresh array on every completed
page append.  Its body: an empty `tours` returns early; the valid
positions are computed with `convertKATECToWGS84` and an empty result
returns early; otherwise markers are rebuilt and, at the end,
`map.fitBounds(bounds)` is invoked over all positions. -/

/-- The coordinate conversion + `filter` pipeline building `positions`. -/
def validPositions (tours : List TourItem) : List GeoPoint :=
  tours.filterMap (fun tour => convertKATECToWGS84 tour.mapx tour.mapy)

/-- The observable outcome of one run of the marker effect. -/
structure MapRenderEffect where
  markers : List GeoPoint
  fitBoundsCalled : Bool
deriving DecidableEq, Repr

/-- Embedding of the marker effect body as a function of the `tours`
dependency (script loaded, map container mounted). -/
def mapMarkersEffect (tours : List TourItem) : MapRenderEffect :=
  if tours.isEmpty then { markers := [], fitBoundsCalled := false }
  else
    let positions := validPositions tours
    if positions.isEmpty then { markers := [], fitBoundsCalled := false }
    else { markers := positions, fitBoundsCalled := true }

lemma convert_at_127_37 : convertKATECToWGS84 127 37 = some ⟨127, 37⟩ := by
  unfold convertKATECToWGS84
  rw [if_neg (by norm_num)]
  have hdet : (decide ((1000000 : ℚ) ≤ |(127 : ℚ)| ∨ (1000000 : ℚ) ≤ |(37 : ℚ)|) : Bool)
      = false := by
    simp only [decide_eq_false_iff_not]
    push_neg
    constructor <;> · rw [abs_of_nonneg (by norm_num)]; norm_num
  simp only [hdet, Bool.false_eq_true, if_false]
  rw [if_neg (by push_neg; refine ⟨?_, ?_, ?_, ?_⟩ <;> norm_num)]

lemma convert_at_127_38 : convertKATECToWGS84 127 38 = some ⟨127, 38⟩ := by
  unfold convertKATECToWGS84
  rw [if_neg (by norm_num)]
  have hdet : (decide ((1000000 : ℚ) ≤ |(127 : ℚ)| ∨ (1000000 : ℚ) ≤ |(38 : ℚ)|) : Bool)
      = false := by
    simp only [decide_eq_false_iff_not]
    push_neg
    constructor <;> · rw [abs_of_nonneg (by norm_num)]; norm_num
  simp only [hdet, Bool.false_eq_true, if_false]
  rw [if_neg (by push_neg; refine ⟨?_, ?_, ?_, ?_⟩ <;> norm_num)]

lemma validPositions_A1_A2 :
    validPositions [tourA1, tourA2] = [⟨127, 37⟩, ⟨127, 38⟩] := by
  simp [validPositions, tourA1, tourA2, mkItem, convert_at_127_37, convert_at_127_38]

/-- Counterexample to claim C8 as stated: after a completed `loadNext`
page append the marker effect re-runs on the grown `tours` array (it is in
the effect's dependency list) and invokes `fitBounds`, moving the camera —
here a session holding one valid item appends a page with another valid
item and the effect re-fits. -/
theorem append_refits_camera :
    (mapMarkersEffect
        ((handleLoadMore
            { allTours := [tourA1], currentPage := 1, isLoadingMore := false,
              hasMore := true, totalCount := 40 }
            (.ok { tours := [tourA2], hasMore := true, totalCount := 40 })).allTours)).fitBoundsCalled
      = true := by
  have happend : (handleLoadMore
      { allTours := [tourA1], currentPage := 1, isLoadingMore := false,
        hasMore := true, totalCount := 40 }
      (.ok { tours := [tourA2], hasMore := true, totalCount := 40 })).allTours
      = [tourA1, tourA2] := by
    rw [handleLoadMore, if_neg (by simp)]
    rfl
  rw [happend, mapMarkersEffect, if_neg (by simp)]
  simp [validPositions_A1_A2]

/-- Claim C8 (amended): the camera fit is not restricted to full item-set
changes — every completed `loadNext` append re-runs the marker effect on
the appended list, and whenever that list has at least one valid GeoPoint
the effect both rebuilds the markers and calls `fitBounds` again (the
camera is re-fit on incremental pages, not left unchanged). -/
theorem fitBounds_runs_on_append (s : LayoutState) (r : LoadMoreResult)
    (h1 : s.isLoadingMore = false) (h2 : s.hasMore = true)
    (hpos : validPositions (s.allTours ++ r.tours) ≠ []) :
    (mapMarkersEffect ((handleLoadMore s (.ok r)).allTours)).fitBoundsCalled = true ∧
    (mapMarkersEffect ((handleLoadMore s (.ok r)).allTours)).markers =
      validPositions (s.allTours ++ r.tours) := by
  have happend : (handleLoadMore s (.ok r)).allTours = s.allTours ++ r.tours := by
    rw [handleLoadMore, if_neg (by simp [h1, h2])]
  have hne : s.allTours ++ r.tours ≠ [] := by
    intro hcontra
    exact hpos (by rw [hcontra]; rfl)
  rw [happend, mapMarkersEffect,
    if_neg (by simpa [List.isEmpty_iff] using hne),
    if_neg (by simpa [List.isEmpty_iff] using hpos)]
  exact ⟨rfl, rfl⟩

/-- Witness for the amended C8. -/
theorem fitBounds_runs_on_append_witness :
    (mapMarkersEffect
        ((handleLoadMore
            { allTours := [tourB1], currentPage := 1, isLoadingMore := false,
              hasMore := true, totalCount := 40 }
            (.ok { tours := [tourA1, tourA2], hasMore := false, totalCount := 40 })).allTours)).fitBoundsCalled
      = true ∧
    (mapMarkersEffect
        ((handleLoadMore
            { allTours := [tourB1], currentPage := 1, isLoadingMore := false,
              hasMore := true, totalCount := 40 }
            (.ok { tours := [tourA1, tourA2], hasMore := false, totalCount := 40 })).allTours)).markers
      = validPositions ([tourB1] ++ [tourA1, tourA2]) :=
  fitBounds_runs_on_append
    { allTours := [tourB1], currentPage := 1, isLoadingMore := false,
      hasMore := true, totalCount := 40 }
    { tours := [tourA1, tourA2], hasMore := false, totalCount := 40 } rfl rfl
    (by simp [validPositions, tourA1, tourA2, tourB1, mkItem,
      convert_at_127_37, convert_at_127_38])

end TourMap
